import Mathlib

/-!
# seat-test: session discovery, seat resolution and device acquisition

A shallow embedding of `src/main.c`.  The program is a straight line of calls
into libelogind (sd-login, sd-bus) and libc.  Every external call is answered
by a `World`, a record of functions from the call's arguments to what the call
returns and stores; every call and every line printed is appended to a trace,
so that ordering properties can be stated on the run itself.

Modelling conventions
* a `char *` cell is an `Option String` (`none`: NULL or never assigned);
* C `int` results are `Int`; the program only compares them with `0`;
* `strdup` and `malloc` are taken to succeed, `strdup p` is `p`;
* the block returned by `malloc` and the local `int fd` start with
  indeterminate contents, supplied by the `World`.
-/

namespace SeatTest

/-- A `char *` cell. -/
abbrev CStr := Option String

/-- Result of a library call that returns an `int` and may store a value
through an out-pointer: `out = some v` when it stored `v`, `none` when it left
the pointed-to cell alone. -/
structure OutCall (α : Type) where
  ret : Int
  out : Option α

/-- Content of the cell behind the out-pointer after the call. -/
def OutCall.store {α : Type} (r : OutCall α) (cell : α) : α :=
  r.out.getD cell

/-- An argument of a variadic call (`printf`, `sd_bus_call_method`). -/
inductive Arg where
  | str (s : CStr)
  | int (n : Int)
  | uint (n : Nat)
  | strerror (errnum : Int)
  deriving DecidableEq, Repr

/-- The aggregate `Seat` of `main.c`. -/
structure Seat where
  seat_path : CStr
  session_path : CStr
  seat : CStr
  id : CStr
  bus : Option Nat
  deriving DecidableEq, Repr

/-- What `sd_bus_call_method` leaves behind: its return value, the reply
message (`none` while `msg` is still NULL) and `error.message`. -/
structure BusReply where
  ret : Int
  msg : Option Nat
  error_message : CStr

/-- Result of `sd_bus_message_read(msg, "o", &path)`. -/
structure ReadPath where
  ret : Int
  path : String

/-- Result of `sd_bus_message_read(msg, "hb", &tmpfd, &paused)`. -/
structure ReadHandle where
  ret : Int
  fd : Int
  paused : Int

/-- Result of `stat(path, &st)`. -/
structure StatResult where
  ret : Int
  st_rdev : Nat
  errno : Int

/-- Result of `fcntl(fd, F_DUPFD_CLOEXEC, 0)`. -/
structure DupResult where
  ret : Int
  errno : Int

/-- The environment of one run. -/
structure World where
  getenv : String → CStr
  getpid : Nat
  getuid : Nat
  sd_session_is_active : String → Int
  sd_pid_get_session : Nat → OutCall CStr
  sd_uid_get_display : Nat → OutCall CStr
  sd_session_get_seat : CStr → OutCall CStr
  sd_bus_default_system : OutCall (Option Nat)
  sd_bus_call_method : Option Nat → String → CStr → String → String → String → List Arg → BusReply
  sd_bus_message_read_o : Option Nat → ReadPath
  sd_bus_message_read_hb : Option Nat → ReadHandle
  stat : String → StatResult
  major : Nat → Nat
  minor : Nat → Nat
  fcntl_dupfd_cloexec : Int → DupResult
  malloc_Seat : Seat
  stack_fd : Int

/-- One observable action of a run: an external call with its arguments and
return value, or a line handed to `printf`/`fprintf`. -/
inductive Event where
  | getenv (name : String)
  | sd_session_is_active (session : String) (ret : Int)
  | sd_pid_get_session (pid : Nat) (ret : Int)
  | sd_uid_get_display (uid : Nat) (ret : Int)
  | sd_session_get_seat (session : CStr) (ret : Int)
  | sd_bus_default_system (ret : Int)
  | sd_bus_call_method (path : CStr) (iface : String) (member : String) (args : List Arg) (ret : Int)
  | sd_bus_message_read (msg : Option Nat) (types : String) (ret : Int)
  | stat (path : String) (ret : Int)
  | fcntl_dupfd_cloexec (fd : Int) (ret : Int)
  | sd_bus_error_free
  | sd_bus_message_unref (msg : Option Nat)
  | stdout (fmt : String) (args : List Arg)
  | stderr (fmt : String) (args : List Arg)
  deriving DecidableEq, Repr

/-- What `get_session_id` leaves in `*id`, and its trace. -/
structure SessionIdResult where
  id : CStr
  trace : List Event

/-- Embedding of `get_session_id(char **id)`; the argument is the content of
`*id` on entry. -/
def get_session_id (w : World) (id : CStr) : SessionIdResult :=
  let xdg_session_id := w.getenv "XDG_SESSION_ID"
  let t0 := [Event.getenv "XDG_SESSION_ID"]
  -- if (xdg_session_id) { ... }
  let hint : SessionIdResult :=
    match xdg_session_id with
    | some h =>
      let ret := w.sd_session_is_active h
      let t1 := t0 ++ [Event.sd_session_is_active h ret]
      let t2 :=
        if ret < 0 then
          t1 ++ [Event.stderr "[Error]: sd_session_is_active failed" [],
                 Event.stderr "[Error]: Could not check if session was active: %s"
                   [Arg.strerror (-ret)]]
        else t1
      -- *id = strdup(xdg_session_id);
      ⟨some h, t2⟩
    | none => ⟨id, t0⟩
  -- ret = sd_pid_get_session(getpid(), id);
  let p := w.sd_pid_get_session w.getpid
  let id1 := p.store hint.id
  let t3 := hint.trace ++ [Event.sd_pid_get_session w.getpid p.ret]
  if p.ret = 0 then
    ⟨id1, t3 ++ [Event.stdout "[Info]: There is already a session with this process.\n" []]⟩
  else
    -- ret = sd_uid_get_display(getuid(), id);
    let d := w.sd_uid_get_display w.getuid
    let id2 := d.store id1
    let t4 := t3 ++ [Event.sd_uid_get_display w.getuid d.ret]
    if d.ret < 0 then
      ⟨id2, t4 ++ [Event.stderr "[Error]: Could not get primary session for user: %s\n"
                     [Arg.strerror (-d.ret)]]⟩
    else ⟨id2, t4⟩

/-- Result of `find_seat_path` / `find_session_path`: the value returned, the
aggregate afterwards, the trace. -/
structure StepResult where
  ret : Int
  seat : Seat
  trace : List Event

/-- The `GetSeat` request of `find_seat_path`. -/
def call_GetSeat (w : World) (seat : Seat) : BusReply :=
  w.sd_bus_call_method seat.bus "org.freedesktop.login1" (some "/org/freedesktop/login1")
    "org.freedesktop.login1.Manager" "GetSeat" "s" [Arg.str seat.seat]

/-- The `GetSession` request of `find_session_path`. -/
def call_GetSession (w : World) (seat : Seat) : BusReply :=
  w.sd_bus_call_method seat.bus "org.freedesktop.login1" (some "/org/freedesktop/login1")
    "org.freedesktop.login1.Manager" "GetSession" "s" [Arg.str seat.id]

/-- The `TakeDevice` request of `open_device`, for a device number `rdev`. -/
def call_TakeDevice (w : World) (seat : Seat) (rdev : Nat) : BusReply :=
  w.sd_bus_call_method seat.bus "org.freedesktop.login1" seat.session_path
    "org.freedesktop.login1.Session" "TakeDevice" "uu"
    [Arg.uint (w.major rdev), Arg.uint (w.minor rdev)]

/-- The reply to the `TakeDevice` request that `open_device` sends for
`path` once `stat` has succeeded (`msg` and `error` in the source). -/
def takeDeviceReply (w : World) (seat : Seat) (path : String) : BusReply :=
  call_TakeDevice w seat (w.stat path).st_rdev

/-- What `open_device` reads from that reply (`tmpfd` and `paused` after
`sd_bus_message_read`). -/
def replyHandle (w : World) (seat : Seat) (path : String) : ReadHandle :=
  w.sd_bus_message_read_hb (takeDeviceReply w seat path).msg

/-- Embedding of `find_seat_path(Seat *seat)`. -/
def find_seat_path (w : World) (seat : Seat) : StepResult :=
  let c := call_GetSeat w seat
  let t0 := [Event.sd_bus_call_method (some "/org/freedesktop/login1")
    "org.freedesktop.login1.Manager" "GetSeat" [Arg.str seat.seat] c.ret]
  -- out: sd_bus_error_free(&error); sd_bus_message_unref(msg); return ret;
  let out := [Event.sd_bus_error_free, Event.sd_bus_message_unref c.msg]
  if c.ret < 0 then
    ⟨c.ret, seat,
      t0 ++ [Event.stderr "[Error]: Could not get seat: %s\n" [Arg.str c.error_message]] ++ out⟩
  else
    let r := w.sd_bus_message_read_o c.msg
    let t1 := t0 ++ [Event.sd_bus_message_read c.msg "o" r.ret]
    if r.ret < 0 then
      ⟨r.ret, seat,
        t1 ++ [Event.stderr "[Error]: Could not parse D-Bus response: %s\n"
                 [Arg.strerror (-r.ret)]] ++ out⟩
    else
      -- seat->seat_path = strdup(path);
      ⟨r.ret, { seat with seat_path := some r.path }, t1 ++ out⟩

/-- Embedding of `find_session_path(Seat *seat)`. -/
def find_session_path (w : World) (seat : Seat) : StepResult :=
  let c := call_GetSession w seat
  let t0 := [Event.sd_bus_call_method (some "/org/freedesktop/login1")
    "org.freedesktop.login1.Manager" "GetSession" [Arg.str seat.id] c.ret]
  let out := [Event.sd_bus_error_free, Event.sd_bus_message_unref c.msg]
  if c.ret < 0 then
    ⟨c.ret, seat,
      t0 ++ [Event.stderr "Could not get session: %s\n" [Arg.str c.error_message]] ++ out⟩
  else
    let r := w.sd_bus_message_read_o c.msg
    let t1 := t0 ++ [Event.sd_bus_message_read c.msg "o" r.ret]
    if r.ret < 0 then
      ⟨r.ret, seat,
        t1 ++ [Event.stderr "[Error]: Could not parse D-Bus response: %s\n"
                 [Arg.strerror (-r.ret)]] ++ out⟩
    else
      -- seat->session_path = strdup(path);
      ⟨r.ret, { seat with session_path := some r.path }, t1 ++ out⟩

/-- Result of `open_device`: the value returned, the aggregate and the
caller's `*fd` afterwards, the trace. -/
structure DeviceResult where
  ret : Int
  seat : Seat
  fd : Int
  trace : List Event

/-- Embedding of `open_device(Seat *seat, const char *path, int *fd)`; the
last argument is the content of `*fd` on entry. -/
def open_device (w : World) (seat : Seat) (path : String) (fd : Int) : DeviceResult :=
  let st := w.stat path
  let t0 := [Event.stat path st.ret]
  if st.ret < 0 then
    -- return -1, before any bus object exists
    ⟨-1, seat, fd,
      t0 ++ [Event.stderr "[Error]: Could not stat path: %s: %s\n"
               [Arg.str (some path), Arg.strerror st.errno]]⟩
  else
    let c := call_TakeDevice w seat st.st_rdev
    let t1 := t0 ++ [Event.sd_bus_call_method seat.session_path
      "org.freedesktop.login1.Session" "TakeDevice"
      [Arg.uint (w.major st.st_rdev), Arg.uint (w.minor st.st_rdev)] c.ret]
    -- out: sd_bus_error_free(&error); sd_bus_message_unref(msg); return tmpfd;
    let out := [Event.sd_bus_error_free, Event.sd_bus_message_unref c.msg]
    if c.ret < 0 then
      ⟨-1, seat, fd,
        t1 ++ [Event.stderr "[Error]: Could not take device: %s: %s\n"
                 [Arg.str (some path), Arg.str c.error_message]] ++ out⟩
    else
      let r := w.sd_bus_message_read_hb c.msg
      let t2 := t1 ++ [Event.sd_bus_message_read c.msg "hb" r.ret]
      if r.ret < 0 then
        ⟨-1, seat, fd,
          t2 ++ [Event.stderr "[Error]: Could not parse D-Bus response: %s\n"
                   [Arg.strerror (-r.ret)]] ++ out⟩
      else
        -- tmpfd = fcntl(tmpfd, F_DUPFD_CLOEXEC, 0);
        let d := w.fcntl_dupfd_cloexec r.fd
        let t3 := t2 ++ [Event.fcntl_dupfd_cloexec r.fd d.ret]
        if d.ret < 0 then
          ⟨-1, seat, fd,
            t3 ++ [Event.stderr "[Error]: Could not duplicate fd: %s\n"
                     [Arg.strerror d.errno]] ++ out⟩
        else
          -- *fd = tmpfd;
          ⟨d.ret, seat, d.ret, t3 ++ out⟩

/-- Result of `main`: the exit status, the aggregate and the local `fd` at
the `return`, the trace. -/
structure MainResult where
  status : Int
  seat : Seat
  fd : Int
  trace : List Event

/-- The device node hard-coded in `main`. -/
def device_path : String := "/dev/input/event0"

/-- Embedding of `main(void)`. -/
def main (w : World) : MainResult :=
  -- Seat *seat = malloc(sizeof(Seat));
  let seat0 := w.malloc_Seat
  let fd0 := w.stack_fd
  -- get_session_id(&seat->id);
  let g := get_session_id w seat0.id
  let seat1 : Seat := { seat0 with id := g.id }
  let t0 := g.trace ++ [Event.stdout "[Info]: Session id is: %s\n" [Arg.str seat1.id]]
  -- ret = sd_session_get_seat(seat->id, &seat->seat);
  let s := w.sd_session_get_seat seat1.id
  let seat2 : Seat := { seat1 with seat := s.store seat1.seat }
  let t1 := t0 ++ [Event.sd_session_get_seat seat1.id s.ret]
  if s.ret < 0 then
    ⟨1, seat2, fd0,
      t1 ++ [Event.stderr "[Error]: Could not get the session seat: %s\n"
               [Arg.strerror (-s.ret)]]⟩
  else
    let t2 := t1 ++ [Event.stdout "[Info]: Seat is: %s\n" [Arg.str seat2.seat]]
    -- ret = sd_bus_default_system(&seat->bus);
    let b := w.sd_bus_default_system
    let seat3 : Seat := { seat2 with bus := b.store seat2.bus }
    let t3 := t2 ++ [Event.sd_bus_default_system b.ret]
    if b.ret < 0 then
      ⟨1, seat3, fd0,
        t3 ++ [Event.stderr "[Error]: Could not get the default system: %s\n"
                 [Arg.strerror (-b.ret)]]⟩
    else
      let fs := find_session_path w seat3
      let t4 := t3 ++ fs.trace
      if fs.ret < 0 then ⟨1, fs.seat, fd0, t4⟩
      else
        let t5 := t4 ++ [Event.stdout "[Info]: Session path is: %s\n"
          [Arg.str fs.seat.session_path]]
        let ft := find_seat_path w fs.seat
        let t6 := t5 ++ ft.trace
        if ft.ret < 0 then ⟨1, ft.seat, fd0, t6⟩
        else
          let t7 := t6 ++ [Event.stdout "[Info]: Seat path is: %s\n"
            [Arg.str ft.seat.seat_path]]
          let od := open_device w ft.seat device_path fd0
          let t8 := t7 ++ od.trace
          if od.ret < 0 then ⟨1, od.seat, od.fd, t8⟩
          else
            ⟨0, od.seat, od.fd,
              t8 ++ [Event.stdout "[Info]: Path: %s: %d\n"
                       [Arg.str (some device_path), Arg.int od.fd]]⟩

/-! ## Reading a trace -/

/-- The fallible external calls made from seat lookup onward. -/
inductive Call where
  | sd_session_get_seat
  | sd_bus_default_system
  | sd_bus_call_method (member : String)
  | sd_bus_message_read (types : String)
  | stat
  | fcntl_dupfd_cloexec
  deriving DecidableEq, Repr

/-- The fallible call an event records, with the value it returned. -/
def Event.step : Event → Option (Call × Int)
  | .sd_session_get_seat _ r => some (Call.sd_session_get_seat, r)
  | .sd_bus_default_system r => some (Call.sd_bus_default_system, r)
  | .sd_bus_call_method _ _ m _ r => some (Call.sd_bus_call_method m, r)
  | .sd_bus_message_read _ t r => some (Call.sd_bus_message_read t, r)
  | .stat _ r => some (Call.stat, r)
  | .fcntl_dupfd_cloexec _ r => some (Call.fcntl_dupfd_cloexec, r)
  | _ => none

/-- The fallible call an event records, with whether it succeeded (did not
return a negative value). -/
def Event.outcome (e : Event) : Option (Call × Bool) :=
  e.step.map fun cr => (cr.1, decide (0 ≤ cr.2))

/-- The fallible calls of a trace, in order, each with its outcome. -/
def outcomes (t : List Event) : List (Call × Bool) :=
  t.filterMap Event.outcome

/-- The calls of a complete run from seat lookup to descriptor duplication. -/
def allCalls : List Call :=
  [Call.sd_session_get_seat, Call.sd_bus_default_system,
   Call.sd_bus_call_method "GetSession", Call.sd_bus_message_read "o",
   Call.sd_bus_call_method "GetSeat", Call.sd_bus_message_read "o",
   Call.stat, Call.sd_bus_call_method "TakeDevice", Call.sd_bus_message_read "hb",
   Call.fcntl_dupfd_cloexec]

/-- The line an event writes to standard output, if it writes one. -/
def Event.stdoutLine : Event → Option (String × List Arg)
  | .stdout fmt args => some (fmt, args)
  | _ => none

/-- What a trace writes to standard output. -/
def stdoutOf (t : List Event) : List (String × List Arg) :=
  t.filterMap Event.stdoutLine

/-- Outcomes of a run through `calls` in which the first `k` calls succeed
and the next one, if there is a next one, fails; nothing is called after it. -/
def runTo (calls : List Call) (k : Nat) : List (Call × Bool) :=
  (calls.take k).map (fun c => (c, true)) ++ ((calls.drop k).take 1).map (fun c => (c, false))

/-! ## What a full run resolves

Stated from the claims' words, on the answers of the `World` alone: the ten
steps from seat lookup to descriptor duplication, each keyed by what the
steps before it resolved. -/

/-- The session id `get_session_id` leaves in `seat->id`. -/
def resolvedId (w : World) : CStr :=
  (get_session_id w w.malloc_Seat.id).id

/-- The answer to the seat lookup for the resolved session id. -/
def seatLookup (w : World) : OutCall CStr :=
  w.sd_session_get_seat (resolvedId w)

/-- The seat name: what the seat lookup stored. -/
def resolvedSeat (w : World) : CStr :=
  match (seatLookup w).out with
  | some name => name
  | none => w.malloc_Seat.seat

/-- The bus connection: what `sd_bus_default_system` stored. -/
def resolvedBus (w : World) : Option Nat :=
  match w.sd_bus_default_system.out with
  | some bus => bus
  | none => w.malloc_Seat.bus

/-- The reply to `GetSession` for the resolved session id. -/
def sessionReply (w : World) : BusReply :=
  w.sd_bus_call_method (resolvedBus w) "org.freedesktop.login1" (some "/org/freedesktop/login1")
    "org.freedesktop.login1.Manager" "GetSession" "s" [Arg.str (resolvedId w)]

/-- The object path parsed from the `GetSession` reply. -/
def sessionPathRead (w : World) : ReadPath :=
  w.sd_bus_message_read_o (sessionReply w).msg

/-- The reply to `GetSeat` for the resolved seat name. -/
def seatReply (w : World) : BusReply :=
  w.sd_bus_call_method (resolvedBus w) "org.freedesktop.login1" (some "/org/freedesktop/login1")
    "org.freedesktop.login1.Manager" "GetSeat" "s" [Arg.str (resolvedSeat w)]

/-- The object path parsed from the `GetSeat` reply. -/
def seatPathRead (w : World) : ReadPath :=
  w.sd_bus_message_read_o (seatReply w).msg

/-- The answer to `stat` on the device node. -/
def deviceStat (w : World) : StatResult :=
  w.stat "/dev/input/event0"

/-- The reply to `TakeDevice`, sent to the resolved session object for the
device number of the node. -/
def deviceReply (w : World) : BusReply :=
  w.sd_bus_call_method (resolvedBus w) "org.freedesktop.login1"
    (some (sessionPathRead w).path) "org.freedesktop.login1.Session" "TakeDevice" "uu"
    [Arg.uint (w.major (deviceStat w).st_rdev), Arg.uint (w.minor (deviceStat w).st_rdev)]

/-- The handle and paused flag parsed from the `TakeDevice` reply. -/
def deviceHandle (w : World) : ReadHandle :=
  w.sd_bus_message_read_hb (deviceReply w).msg

/-- The answer to the duplication of the handle carried by the reply. -/
def deviceDup (w : World) : DupResult :=
  w.fcntl_dupfd_cloexec (deviceHandle w).fd

/-- Every step from seat lookup onward succeeds: the seat lookup, the bus
connection, the `GetSession` call and the parse of its reply, the `GetSeat`
call and its parse, `stat`, the `TakeDevice` call, its parse, the
duplication. -/
def AllStepsSucceed (w : World) : Prop :=
  0 ≤ (seatLookup w).ret ∧ 0 ≤ w.sd_bus_default_system.ret ∧
  0 ≤ (sessionReply w).ret ∧ 0 ≤ (sessionPathRead w).ret ∧
  0 ≤ (seatReply w).ret ∧ 0 ≤ (seatPathRead w).ret ∧
  0 ≤ (deviceStat w).ret ∧ 0 ≤ (deviceReply w).ret ∧
  0 ≤ (deviceHandle w).ret ∧ 0 ≤ (deviceDup w).ret

/-! ## Concrete environments -/

/-- A responsive login manager: no session hint in the environment, the
process belongs to session `c2`, every later call succeeds. -/
def responsiveWorld : World where
  getenv := fun _ => none
  getpid := 4242
  getuid := 1000
  sd_session_is_active := fun _ => 1
  sd_pid_get_session := fun _ => ⟨0, some (some "c2")⟩
  sd_uid_get_display := fun _ => ⟨0, some (some "c1")⟩
  sd_session_get_seat := fun _ => ⟨0, some (some "seat0")⟩
  sd_bus_default_system := ⟨0, some (some 1)⟩
  sd_bus_call_method := fun _ _ _ _ member _ _ =>
    ⟨1, some (if member = "GetSession" then 1 else if member = "GetSeat" then 2 else 3), none⟩
  sd_bus_message_read_o := fun m =>
    if m = some 1 then ⟨1, "/org/freedesktop/login1/session/c2"⟩
    else ⟨1, "/org/freedesktop/login1/seat/seat0"⟩
  sd_bus_message_read_hb := fun _ => ⟨1, 7, 0⟩
  stat := fun _ => ⟨0, 3392, 0⟩
  major := fun d => d / 256
  minor := fun d => d % 256
  fcntl_dupfd_cloexec := fun _ => ⟨8, 0⟩
  malloc_Seat := ⟨none, none, none, none, none⟩
  stack_fd := 0

/-- The responsive world with `XDG_SESSION_ID=c1` in the environment, `c1`
active, while the process itself belongs to session `c2`. -/
def hintedWorld : World :=
  { responsiveWorld with
    getenv := fun name => if name = "XDG_SESSION_ID" then some "c1" else none }

/-- The process is in no session and the user has no display session: both
lookups return `-ENODATA` and store nothing. -/
def sessionlessWorld : World :=
  { responsiveWorld with
    sd_pid_get_session := fun _ => ⟨-61, none⟩
    sd_uid_get_display := fun _ => ⟨-61, none⟩ }

/-- A stale hint: `XDG_SESSION_ID=c1` names a session that the activity
check reports as not active (`activity = 0`), or cannot check
(`activity < 0`); the process is in no session and the user has no display
session. -/
def staleHintWorld (activity : Int) : World :=
  { sessionlessWorld with
    getenv := fun name => if name = "XDG_SESSION_ID" then some "c1" else none
    sd_session_is_active := fun _ => activity }

/-- The responsive world, except that the process is in no session, so that
the display session `c1` of the user is the fallback. -/
def displayWorld : World :=
  { responsiveWorld with sd_pid_get_session := fun _ => ⟨-61, none⟩ }

/-- The responsive world, except that duplicating the descriptor fails. -/
def noDupWorld : World :=
  { responsiveWorld with fcntl_dupfd_cloexec := fun _ => ⟨-1, 24⟩ }

/-! ## Auxiliary facts about traces -/

/-- Projection to the fallible calls distributes over concatenation. -/
theorem outcomes_append (a b : List Event) : outcomes (a ++ b) = outcomes a ++ outcomes b := by
  simp [outcomes]

theorem stdoutOf_append (a b : List Event) : stdoutOf (a ++ b) = stdoutOf a ++ stdoutOf b := by
  simp [stdoutOf]

theorem outcomes_nil : outcomes [] = [] := rfl

theorem outcomes_cons (e : Event) (t : List Event) :
    outcomes (e :: t) = e.outcome.toList ++ outcomes t := by
  cases h : e.outcome <;> simp [outcomes, List.filterMap_cons, h]

theorem stdoutOf_nil : stdoutOf [] = [] := rfl

theorem stdoutOf_cons (e : Event) (t : List Event) :
    stdoutOf (e :: t) = e.stdoutLine.toList ++ stdoutOf t := by
  cases h : e.stdoutLine <;> simp [stdoutOf, List.filterMap_cons, h]

theorem outcomes_get_session_id (w : World) (id : CStr) :
    outcomes (get_session_id w id).trace = [] := by
  unfold get_session_id
  cases h : w.getenv "XDG_SESSION_ID" <;> simp only [] <;> split_ifs <;>
    simp [outcomes, Event.outcome, Event.step]

theorem stdoutOf_get_session_id (w : World) (id : CStr) :
    stdoutOf (get_session_id w id).trace =
      if (w.sd_pid_get_session w.getpid).ret = 0 then
        [("[Info]: There is already a session with this process.\n", [])]
      else [] := by
  unfold get_session_id
  cases h : w.getenv "XDG_SESSION_ID" <;> simp only [] <;> split_ifs <;>
    simp [stdoutOf, Event.stdoutLine]

theorem stdoutOf_find_session_path (w : World) (seat : Seat) :
    stdoutOf (find_session_path w seat).trace = [] := by
  unfold find_session_path
  simp only []
  split_ifs <;> simp [stdoutOf_cons, stdoutOf_nil, Event.stdoutLine]

theorem stdoutOf_find_seat_path (w : World) (seat : Seat) :
    stdoutOf (find_seat_path w seat).trace = [] := by
  unfold find_seat_path
  simp only []
  split_ifs <;> simp [stdoutOf_cons, stdoutOf_nil, Event.stdoutLine]

theorem stdoutOf_open_device (w : World) (seat : Seat) (path : String) (fd : Int) :
    stdoutOf (open_device w seat path fd).trace = [] := by
  unfold open_device
  simp only []
  split_ifs <;> simp [stdoutOf_cons, stdoutOf_nil, Event.stdoutLine]

theorem open_device_seat (w : World) (seat : Seat) (path : String) (fd : Int) :
    (open_device w seat path fd).seat = seat := by
  unfold open_device
  simp only []
  split_ifs <;> rfl

theorem find_seat_path_seat (w : World) (seat : Seat) :
    (find_seat_path w seat).seat =
      if (find_seat_path w seat).ret < 0 then seat
      else { seat with seat_path := some (w.sd_bus_message_read_o (call_GetSeat w seat).msg).path } := by
  unfold find_seat_path
  simp only []
  split_ifs <;> rfl

theorem find_session_path_seat (w : World) (seat : Seat) :
    (find_session_path w seat).seat =
      if (find_session_path w seat).ret < 0 then seat
      else { seat with
        session_path := some (w.sd_bus_message_read_o (call_GetSession w seat).msg).path } := by
  unfold find_session_path
  simp only []
  split_ifs <;> rfl

theorem find_seat_path_keeps (w : World) (seat : Seat) :
    (find_seat_path w seat).seat.id = seat.id ∧
    (find_seat_path w seat).seat.seat = seat.seat ∧
    (find_seat_path w seat).seat.session_path = seat.session_path ∧
    (find_seat_path w seat).seat.bus = seat.bus := by
  rw [find_seat_path_seat]
  split_ifs <;> simp

theorem find_session_path_keeps (w : World) (seat : Seat) :
    (find_session_path w seat).seat.id = seat.id ∧
    (find_session_path w seat).seat.seat = seat.seat ∧
    (find_session_path w seat).seat.seat_path = seat.seat_path ∧
    (find_session_path w seat).seat.bus = seat.bus := by
  rw [find_session_path_seat]
  split_ifs <;> simp

theorem find_session_path_fail {w : World} {seat : Seat}
    (h : (find_session_path w seat).ret < 0) :
    ∃ j, j < 2 ∧ outcomes (find_session_path w seat).trace =
      runTo [Call.sd_bus_call_method "GetSession", Call.sd_bus_message_read "o"] j := by
  unfold find_session_path at h ⊢
  simp only [] at h ⊢
  split_ifs at h ⊢ with h1 h2
  · exact ⟨0, by norm_num, by simp_all [outcomes_cons, outcomes_nil, Event.outcome, Event.step, runTo]⟩
  · exact ⟨1, by norm_num, by simp_all [outcomes_cons, outcomes_nil, Event.outcome, Event.step, runTo]⟩
  · exact absurd h h2

theorem find_session_path_ok {w : World} {seat : Seat}
    (h : ¬ (find_session_path w seat).ret < 0) :
    outcomes (find_session_path w seat).trace =
      [(Call.sd_bus_call_method "GetSession", true), (Call.sd_bus_message_read "o", true)] := by
  unfold find_session_path at h ⊢
  simp only [] at h ⊢
  split_ifs at h ⊢ with h1 h2
  · exact absurd h1 h
  · exact absurd h2 h
  · simp_all [outcomes_cons, outcomes_nil, Event.outcome, Event.step, runTo]

theorem find_seat_path_fail {w : World} {seat : Seat}
    (h : (find_seat_path w seat).ret < 0) :
    ∃ j, j < 2 ∧ outcomes (find_seat_path w seat).trace =
      runTo [Call.sd_bus_call_method "GetSeat", Call.sd_bus_message_read "o"] j := by
  unfold find_seat_path at h ⊢
  simp only [] at h ⊢
  split_ifs at h ⊢ with h1 h2
  · exact ⟨0, by norm_num, by simp_all [outcomes_cons, outcomes_nil, Event.outcome, Event.step, runTo]⟩
  · exact ⟨1, by norm_num, by simp_all [outcomes_cons, outcomes_nil, Event.outcome, Event.step, runTo]⟩
  · exact absurd h h2

theorem find_seat_path_ok {w : World} {seat : Seat}
    (h : ¬ (find_seat_path w seat).ret < 0) :
    outcomes (find_seat_path w seat).trace =
      [(Call.sd_bus_call_method "GetSeat", true), (Call.sd_bus_message_read "o", true)] := by
  unfold find_seat_path at h ⊢
  simp only [] at h ⊢
  split_ifs at h ⊢ with h1 h2
  · exact absurd h1 h
  · exact absurd h2 h
  · simp_all [outcomes_cons, outcomes_nil, Event.outcome, Event.step, runTo]

theorem open_device_fail {w : World} {seat : Seat} {path : String} {fd : Int}
    (h : (open_device w seat path fd).ret < 0) :
    ∃ j, j < 4 ∧ outcomes (open_device w seat path fd).trace =
      runTo [Call.stat, Call.sd_bus_call_method "TakeDevice", Call.sd_bus_message_read "hb",
        Call.fcntl_dupfd_cloexec] j := by
  unfold open_device at h ⊢
  simp only [] at h ⊢
  split_ifs at h ⊢ with h1 h2 h3 h4
  · exact ⟨0, by norm_num, by simp_all [outcomes_cons, outcomes_nil, Event.outcome, Event.step, runTo]⟩
  · exact ⟨1, by norm_num, by simp_all [outcomes_cons, outcomes_nil, Event.outcome, Event.step, runTo]⟩
  · exact ⟨2, by norm_num, by simp_all [outcomes_cons, outcomes_nil, Event.outcome, Event.step, runTo]⟩
  · exact ⟨3, by norm_num, by simp_all [outcomes_cons, outcomes_nil, Event.outcome, Event.step, runTo]⟩
  · exact absurd h h4

theorem open_device_ok {w : World} {seat : Seat} {path : String} {fd : Int}
    (h : ¬ (open_device w seat path fd).ret < 0) :
    outcomes (open_device w seat path fd).trace =
      [(Call.stat, true), (Call.sd_bus_call_method "TakeDevice", true),
        (Call.sd_bus_message_read "hb", true), (Call.fcntl_dupfd_cloexec, true)] ∧
    (open_device w seat path fd).fd = (open_device w seat path fd).ret := by
  unfold open_device at h ⊢
  simp only [] at h ⊢
  split_ifs at h ⊢ with h1 h2 h3 h4
  · simp at h
  · simp at h
  · simp at h
  · simp at h
  · simp_all [outcomes_cons, outcomes_nil, Event.outcome, Event.step, runTo]

theorem open_device_fd_of_fail {w : World} {seat : Seat} {path : String} {fd : Int}
    (h : (open_device w seat path fd).ret < 0) : (open_device w seat path fd).fd = fd := by
  unfold open_device at h ⊢
  simp only [] at h ⊢
  split_ifs at h ⊢ with h1 h2 h3 h4
  · rfl
  · rfl
  · rfl
  · rfl
  · exact absurd h h4

/-- Shape of every run of `main`: the first `k` of the ten calls succeed, the
next one (if `k < 10`) fails, nothing is called after it, and the exit status
is `0` exactly when `k = 10`. -/
theorem main_run (w : World) :
    ∃ k, k ≤ 10 ∧ outcomes (main w).trace = runTo allCalls k ∧
      (main w).status = if k = 10 then 0 else 1 := by
  unfold main
  simp only []
  split_ifs with h1 h2 h3 h4 h5
  · exact ⟨0, by norm_num, by
      simp_all [outcomes_append, outcomes_get_session_id, runTo, allCalls, outcomes_cons,
        outcomes_nil, Event.outcome, Event.step]⟩
  · exact ⟨1, by norm_num, by
      simp_all [outcomes_append, outcomes_get_session_id, runTo, allCalls, outcomes_cons,
        outcomes_nil, Event.outcome, Event.step]⟩
  · obtain ⟨j, hj, ho⟩ := find_session_path_fail h3
    refine ⟨2 + j, by omega, ?_⟩
    interval_cases j <;>
      simp_all [outcomes_append, outcomes_get_session_id, runTo, allCalls, outcomes_cons,
        outcomes_nil, Event.outcome, Event.step]
  · have ho := find_session_path_ok h3
    obtain ⟨j, hj, ho2⟩ := find_seat_path_fail h4
    refine ⟨4 + j, by omega, ?_⟩
    interval_cases j <;>
      simp_all [outcomes_append, outcomes_get_session_id, runTo, allCalls, outcomes_cons,
        outcomes_nil, Event.outcome, Event.step]
  · have ho := find_session_path_ok h3
    have ho2 := find_seat_path_ok h4
    obtain ⟨j, hj, ho3⟩ := open_device_fail h5
    refine ⟨6 + j, by omega, ?_⟩
    interval_cases j <;>
      simp_all [outcomes_append, outcomes_get_session_id, runTo, allCalls, outcomes_cons,
        outcomes_nil, Event.outcome, Event.step]
  · have ho := find_session_path_ok h3
    have ho2 := find_seat_path_ok h4
    have ho3 := (open_device_ok h5).1
    refine ⟨10, by norm_num, ?_⟩
    simp_all [outcomes_append, outcomes_get_session_id, runTo, allCalls, outcomes_cons,
        outcomes_nil, Event.outcome, Event.step]

/-! ## The run in terms of the answers of the world -/

theorem find_session_path_ret_neg (w : World) (seat : Seat) :
    (find_session_path w seat).ret < 0 ↔
      (call_GetSession w seat).ret < 0 ∨
      (w.sd_bus_message_read_o (call_GetSession w seat).msg).ret < 0 := by
  unfold find_session_path
  simp only []
  split_ifs with h1 h2 <;> simp_all

theorem find_seat_path_ret_neg (w : World) (seat : Seat) :
    (find_seat_path w seat).ret < 0 ↔
      (call_GetSeat w seat).ret < 0 ∨
      (w.sd_bus_message_read_o (call_GetSeat w seat).msg).ret < 0 := by
  unfold find_seat_path
  simp only []
  split_ifs with h1 h2 <;> simp_all

theorem open_device_ret_neg (w : World) (seat : Seat) (path : String) (fd : Int) :
    (open_device w seat path fd).ret < 0 ↔
      (w.stat path).ret < 0 ∨ (takeDeviceReply w seat path).ret < 0 ∨
      (replyHandle w seat path).ret < 0 ∨
      (w.fcntl_dupfd_cloexec (replyHandle w seat path).fd).ret < 0 := by
  unfold open_device replyHandle takeDeviceReply
  simp only []
  split_ifs with h1 h2 h3 h4
  all_goals simp_all
  omega

theorem open_device_fd_of_ok {w : World} {seat : Seat} {path : String} {fd : Int}
    (h : ¬ (open_device w seat path fd).ret < 0) :
    (open_device w seat path fd).fd =
      (w.fcntl_dupfd_cloexec (replyHandle w seat path).fd).ret := by
  unfold open_device replyHandle takeDeviceReply at *
  simp only [] at h ⊢
  split_ifs at h ⊢ with h1 h2 h3 h4
  · simp at h
  · simp at h
  · simp at h
  · simp at h
  · rfl

theorem resolvedSeat_eq (w : World) :
    (w.sd_session_get_seat (get_session_id w w.malloc_Seat.id).id).store w.malloc_Seat.seat =
      resolvedSeat w := by
  unfold resolvedSeat seatLookup resolvedId OutCall.store
  cases (w.sd_session_get_seat (get_session_id w w.malloc_Seat.id).id).out <;> rfl

theorem resolvedBus_eq (w : World) :
    w.sd_bus_default_system.store w.malloc_Seat.bus = resolvedBus w := by
  unfold resolvedBus OutCall.store
  cases w.sd_bus_default_system.out <;> rfl

/-- A run that returns `0` has had every step succeed, and ends with the
aggregate and `fd` holding what the steps resolved. -/
theorem main_resolved (w : World) (hs : (main w).status = 0) :
    AllStepsSucceed w ∧
    (main w).seat =
      { seat_path := some (seatPathRead w).path, session_path := some (sessionPathRead w).path,
        seat := resolvedSeat w, id := resolvedId w, bus := resolvedBus w } ∧
    (main w).fd = (deviceDup w).ret := by
  unfold main at hs ⊢
  simp only [] at hs ⊢
  split_ifs at hs with h1 h2 h3 h4 h5
  all_goals try (norm_num at hs; done)
  simp only [if_neg h1, if_neg h2, if_neg h3, if_neg h4, if_neg h5]
  clear hs
  simp only [resolvedSeat_eq, resolvedBus_eq] at h3 h4 h5 ⊢
  rw [open_device_fd_of_ok h5, open_device_seat]
  rw [open_device_ret_neg] at h5
  rw [find_seat_path_seat, if_neg h4] at h5 ⊢
  rw [find_seat_path_ret_neg] at h4
  rw [find_session_path_seat, if_neg h3] at h4 h5 ⊢
  rw [find_session_path_ret_neg] at h3
  push_neg at h3 h4 h5
  exact ⟨⟨not_lt.1 h1, not_lt.1 h2, h3.1, h3.2, h4.1, h4.2, h5.1, h5.2.1, h5.2.2.1, h5.2.2.2⟩,
    rfl, rfl⟩

/-- A run in which every step succeeds returns `0`. -/
theorem main_status_of_all_steps (w : World) (h : AllStepsSucceed w) : (main w).status = 0 := by
  obtain ⟨a1, a2, a3, a4, a5, a6, a7, a8, a9, a10⟩ := h
  unfold main
  simp only []
  split_ifs with h1 h2 h3 h4 h5
  · exact absurd h1 (not_lt.2 a1)
  · exact absurd h2 (not_lt.2 a2)
  · simp only [resolvedSeat_eq, resolvedBus_eq] at h3
    rw [find_session_path_ret_neg] at h3
    rcases h3 with c | c
    · exact absurd c (not_lt.2 a3)
    · exact absurd c (not_lt.2 a4)
  · simp only [resolvedSeat_eq, resolvedBus_eq] at h3 h4
    rw [find_session_path_seat, if_neg h3] at h4
    rw [find_seat_path_ret_neg] at h4
    rcases h4 with c | c
    · exact absurd c (not_lt.2 a5)
    · exact absurd c (not_lt.2 a6)
  · simp only [resolvedSeat_eq, resolvedBus_eq] at h3 h4 h5
    rw [open_device_ret_neg] at h5
    rw [find_seat_path_seat, if_neg h4] at h5
    rw [find_session_path_seat, if_neg h3] at h5
    rcases h5 with c | c | c | c
    · exact absurd c (not_lt.2 a7)
    · exact absurd c (not_lt.2 a8)
    · exact absurd c (not_lt.2 a9)
    · exact absurd c (not_lt.2 a10)
  · rfl

/-! ## The claims -/

/-- A list split around an element determines the position of that element. -/
theorem split_at {α : Type} {l pre post : List α} {x : α} (h : l = pre ++ x :: post) :
    ∃ n, n < l.length ∧ l[n]? = some x ∧ pre = l.take n := by
  subst h
  exact ⟨pre.length, by simp, by rw [List.getElem?_append_right (Nat.le_refl _)]; simp, by simp⟩

/-- Claim C3. `main` returns `0` exactly when every step from seat lookup
onward succeeds, as answered by the world: `sd_session_get_seat` on the
resolved id, `sd_bus_default_system`, the `GetSession` call and the parse of
its reply, the `GetSeat` call and its parse, `stat`, the `TakeDevice` call, its
parse, `fcntl`; it returns `1` in every other run and no other value.  On the
trace: status `0` goes with exactly these ten calls, all successful, status `1`
with a failed call. -/
theorem main_status_zero_iff_all_steps_succeed (w : World) :
    ((main w).status = 0 ∨ (main w).status = 1) ∧
    ((main w).status = 0 ↔ AllStepsSucceed w) ∧
    ((main w).status = 1 ↔ ¬ AllStepsSucceed w) ∧
    ((main w).status = 0 ↔ outcomes (main w).trace = allCalls.map fun c => (c, true)) ∧
    ((main w).status = 1 ↔ ∃ o ∈ outcomes (main w).trace, o.2 = false) := by
  have hiff : (main w).status = 0 ↔ AllStepsSucceed w :=
    ⟨fun hs => (main_resolved w hs).1, main_status_of_all_steps w⟩
  obtain ⟨k, hk, ho, hs⟩ := main_run w
  have h01 : (main w).status = 0 ∨ (main w).status = 1 := by
    rw [hs]
    split_ifs <;> simp
  refine ⟨h01, hiff, ?_, ?_, ?_⟩
  · rw [← hiff]
    rcases h01 with h | h <;> simp [h]
  · rw [ho, hs]
    interval_cases k <;> simp [runTo, allCalls]
  · rw [ho, hs]
    interval_cases k <;> simp [runTo, allCalls]

/-- Claim C4. In every run of `main` the fallible calls are issued in the order
seat lookup, bus connection, `GetSession`, `GetSeat`, `stat`, `TakeDevice`
(with the reply parses and the duplication in between and after), none is
skipped or repeated, and a call is issued only when every call before it
succeeded; a run with a failed call returns `1` and has no call after the
failed one; whatever precedes a `TakeDevice` call contains a successful
`sd_session_get_seat` and a successful `GetSession` call and reply parse. -/
theorem main_steps_in_order (w : World) :
    (∃ rest, allCalls = (outcomes (main w).trace).map Prod.fst ++ rest) ∧
    (outcomes (main w).trace).Pairwise (fun earlier _ => earlier.2 = true) ∧
    ((∃ o ∈ outcomes (main w).trace, o.2 = false) → (main w).status = 1) ∧
    (∀ pre b post,
      outcomes (main w).trace = pre ++ (Call.sd_bus_call_method "TakeDevice", b) :: post →
        (Call.sd_session_get_seat, true) ∈ pre ∧
        (Call.sd_bus_call_method "GetSession", true) ∈ pre ∧
        (Call.sd_bus_message_read "o", true) ∈ pre) := by
  obtain ⟨k, hk, ho, hs⟩ := main_run w
  rw [ho, hs]
  refine ⟨?_, ?_, ?_, ?_⟩
  · interval_cases k <;> simp [runTo, allCalls]
  · interval_cases k <;> simp [runTo, allCalls]
  · interval_cases k <;> simp [runTo, allCalls]
  · intro pre b post h
    obtain ⟨n, hn, hx, rfl⟩ := split_at h
    have hn2 : n < 10 := by
      interval_cases k <;> simp [runTo, allCalls] at hn <;> omega
    interval_cases k <;> interval_cases n <;> simp [runTo, allCalls] at hx ⊢

/-- Claim C1 (evaluation at the failing input). With `XDG_SESSION_ID=c1`, `c1`
reported active, and a process that belongs to session `c2`,
`get_session_id` leaves `c2` in `*id`, not the hint. -/
theorem get_session_id_overwrites_active_hint :
    hintedWorld.getenv "XDG_SESSION_ID" = some "c1" ∧
    0 < hintedWorld.sd_session_is_active "c1" ∧
    (get_session_id hintedWorld none).id = some "c2" := by
  decide

/-- Claim C5. Without `XDG_SESSION_ID`: when `sd_pid_get_session` returns `0`
and stores `p`, `get_session_id` leaves `p` in `*id` and never calls
`sd_uid_get_display`; when `sd_pid_get_session` fails and
`sd_uid_get_display` succeeds and stores `d`, it leaves `d` in `*id`. -/
theorem get_session_id_without_hint (w : World) (id0 : CStr)
    (hx : w.getenv "XDG_SESSION_ID" = none) :
    (∀ p, (w.sd_pid_get_session w.getpid).ret = 0 →
        (w.sd_pid_get_session w.getpid).out = some (some p) →
        (get_session_id w id0).id = some p ∧
        ∀ uid r, Event.sd_uid_get_display uid r ∉ (get_session_id w id0).trace) ∧
    (∀ d, (w.sd_pid_get_session w.getpid).ret < 0 →
        0 ≤ (w.sd_uid_get_display w.getuid).ret →
        (w.sd_uid_get_display w.getuid).out = some (some d) →
        (get_session_id w id0).id = some d) := by
  constructor
  · intro p hp ho
    simp [get_session_id, hx, hp, ho, OutCall.store]
  · intro d hp hd ho
    have hp0 : (w.sd_pid_get_session w.getpid).ret ≠ 0 := by omega
    have hd0 : ¬ (w.sd_uid_get_display w.getuid).ret < 0 := by omega
    simp [get_session_id, hx, hp0, hd0, ho, OutCall.store]

/-- Witness for C5: the session of the process in `responsiveWorld`, the
display session in `displayWorld`. -/
theorem get_session_id_without_hint_witness :
    (get_session_id responsiveWorld none).id = some "c2" ∧
    (get_session_id displayWorld none).id = some "c1" :=
  ⟨((get_session_id_without_hint responsiveWorld none (by decide)).1 "c2"
      (by decide) (by decide)).1,
   (get_session_id_without_hint displayWorld none (by decide)).2 "c1"
      (by decide) (by decide) (by decide)⟩

/-- Claim C8 (evaluation at the failing input). With `XDG_SESSION_ID=c1`, an
activity check that reports `c1` not active (`0`) or fails (`-ENXIO`), and
both lookups failing without storing an id, `get_session_id` leaves the hint
`c1` in `*id`. -/
theorem get_session_id_keeps_stale_hint :
    (get_session_id (staleHintWorld 0) none).id = some "c1" ∧
    (get_session_id (staleHintWorld (-6)) none).id = some "c1" := by
  decide

/-- Claim C9 (counterexample). With the hint set and active and a process that
belongs to a session, the trace of `get_session_id` has no
`sd_uid_get_display` call. -/
theorem get_session_id_skips_display_lookup :
    hintedWorld.getenv "XDG_SESSION_ID" = some "c1" ∧
    0 < hintedWorld.sd_session_is_active "c1" ∧
    ¬ ∃ uid r, Event.sd_uid_get_display uid r ∈ (get_session_id hintedWorld none).trace := by
  refine ⟨by decide, by decide, ?_⟩
  simp [get_session_id, hintedWorld, responsiveWorld]

/-- Claim C9 (amended). In every environment, the hint set and active or not,
`get_session_id` calls `sd_pid_get_session`; it calls `sd_uid_get_display`
exactly when `sd_pid_get_session` returned a value other than `0`. -/
theorem get_session_id_lookups (w : World) (id0 : CStr) :
    Event.sd_pid_get_session w.getpid (w.sd_pid_get_session w.getpid).ret
      ∈ (get_session_id w id0).trace ∧
    ((∃ uid r, Event.sd_uid_get_display uid r ∈ (get_session_id w id0).trace) ↔
      (w.sd_pid_get_session w.getpid).ret ≠ 0) := by
  unfold get_session_id
  cases h : w.getenv "XDG_SESSION_ID" <;> simp only [] <;> split_ifs <;> simp_all

/-- Standard output of a run whose ten calls all succeed, in terms of the
aggregate and `fd` at the end of the run. -/
theorem main_stdout_of_all_calls (w : World)
    (h : outcomes (main w).trace = allCalls.map fun c => (c, true)) :
    0 ≤ (main w).fd ∧
    (main w).seat.id = (get_session_id w w.malloc_Seat.id).id ∧
    stdoutOf (main w).trace =
      (if (w.sd_pid_get_session w.getpid).ret = 0 then
        [("[Info]: There is already a session with this process.\n", [])]
       else []) ++
      [("[Info]: Session id is: %s\n", [Arg.str (main w).seat.id]),
       ("[Info]: Seat is: %s\n", [Arg.str (main w).seat.seat]),
       ("[Info]: Session path is: %s\n", [Arg.str (main w).seat.session_path]),
       ("[Info]: Seat path is: %s\n", [Arg.str (main w).seat.seat_path]),
       ("[Info]: Path: %s: %d\n", [Arg.str (some "/dev/input/event0"), Arg.int (main w).fd])] := by
  have hs : (main w).status = 0 := by
    obtain ⟨k, hk, ho, hs⟩ := main_run w
    rw [ho] at h
    rw [hs]
    interval_cases k <;> simp [runTo, allCalls] at h ⊢
  clear h
  unfold main at hs ⊢
  simp only [] at hs ⊢
  split_ifs at hs with h1 h2 h3 h4 h5
  all_goals try (norm_num at hs; done)
  simp only [if_neg h1, if_neg h2, if_neg h3, if_neg h4, if_neg h5]
  refine ⟨?_, ?_, ?_⟩
  · have := (open_device_ok h5).2
    omega
  · simp [open_device_seat, (find_seat_path_keeps _ _).1, (find_session_path_keeps _ _).1]
  · simp [stdoutOf_append, stdoutOf_cons, stdoutOf_nil, stdoutOf_get_session_id,
      stdoutOf_find_session_path, stdoutOf_find_seat_path, stdoutOf_open_device,
      Event.stdoutLine, open_device_seat, find_seat_path_keeps, find_session_path_keeps,
      device_path]

/-- Claim C6. In a run of `main` in which every step from seat lookup to
descriptor duplication succeeds, the handle is non-negative and is the value
the duplication returned; standard output is, after the line
`get_session_id` prints when the process already has a session, exactly five
lines: the session id `get_session_id` resolved, the seat name the seat lookup
stored, the object path parsed from the `GetSession` reply, the object path
parsed from the `GetSeat` reply, and the handle; and these are the values the
aggregate holds at the end of the run. -/
theorem main_success_output (w : World) (h : AllStepsSucceed w) :
    0 ≤ (main w).fd ∧
    (main w).fd = (deviceDup w).ret ∧
    (main w).seat =
      { seat_path := some (seatPathRead w).path, session_path := some (sessionPathRead w).path,
        seat := resolvedSeat w, id := resolvedId w, bus := resolvedBus w } ∧
    stdoutOf (main w).trace =
      (if (w.sd_pid_get_session w.getpid).ret = 0 then
        [("[Info]: There is already a session with this process.\n", [])]
       else []) ++
      [("[Info]: Session id is: %s\n", [Arg.str (resolvedId w)]),
       ("[Info]: Seat is: %s\n", [Arg.str (resolvedSeat w)]),
       ("[Info]: Session path is: %s\n", [Arg.str (some (sessionPathRead w).path)]),
       ("[Info]: Seat path is: %s\n", [Arg.str (some (seatPathRead w).path)]),
       ("[Info]: Path: %s: %d\n",
         [Arg.str (some "/dev/input/event0"), Arg.int (deviceDup w).ret])] := by
  have hs : (main w).status = 0 := main_status_of_all_steps w h
  obtain ⟨-, hseat, hfd⟩ := main_resolved w hs
  have hcalls : outcomes (main w).trace = allCalls.map fun c => (c, true) := by
    obtain ⟨k, hk, ho, hk2⟩ := main_run w
    rw [hk2] at hs
    rw [ho]
    interval_cases k <;> simp [runTo, allCalls] at hs ⊢
  obtain ⟨hfd0, -, hout⟩ := main_stdout_of_all_calls w hcalls
  rw [hseat, hfd] at hout
  exact ⟨hfd ▸ hfd0, hfd, hseat, hout⟩

/-- Witness for C6: the run against `responsiveWorld` prints session `c2`,
seat `seat0`, their object paths and the duplicate `8`. -/
theorem main_success_output_witness :
    (main responsiveWorld).fd = 8 ∧
    (main responsiveWorld).seat.seat = some "seat0" ∧
    stdoutOf (main responsiveWorld).trace =
      [("[Info]: There is already a session with this process.\n", []),
       ("[Info]: Session id is: %s\n", [Arg.str (some "c2")]),
       ("[Info]: Seat is: %s\n", [Arg.str (some "seat0")]),
       ("[Info]: Session path is: %s\n",
         [Arg.str (some "/org/freedesktop/login1/session/c2")]),
       ("[Info]: Seat path is: %s\n", [Arg.str (some "/org/freedesktop/login1/seat/seat0")]),
       ("[Info]: Path: %s: %d\n", [Arg.str (some "/dev/input/event0"), Arg.int 8])] := by
  have h := main_success_output responsiveWorld (by unfold AllStepsSucceed; decide)
  refine ⟨h.2.1.trans (by decide), ?_, h.2.2.2.trans (by decide)⟩
  rw [h.2.2.1]
  decide

/-- Claim C7. In a run of `open_device` in which `stat`, the `TakeDevice` call
and the parse of its reply succeed, `fcntl(F_DUPFD_CLOEXEC)` is called on the
handle read from the reply, once, and before the only
`sd_bus_message_unref`, which releases that reply; when the duplication
succeeds the value returned and stored in `*fd` is the value `fcntl` returned;
when it fails `open_device` returns a negative value and leaves `*fd` alone. -/
theorem open_device_duplicates_before_release (w : World) (seat : Seat) (path : String)
    (fd0 : Int)
    (hst : 0 ≤ (w.stat path).ret)
    (hcall : 0 ≤ (takeDeviceReply w seat path).ret)
    (hread : 0 ≤ (replyHandle w seat path).ret) :
    (∃ pre mid post,
      (open_device w seat path fd0).trace =
        pre ++ Event.fcntl_dupfd_cloexec (replyHandle w seat path).fd
            (w.fcntl_dupfd_cloexec (replyHandle w seat path).fd).ret ::
          (mid ++ Event.sd_bus_message_unref (takeDeviceReply w seat path).msg :: post) ∧
      (∀ e ∈ pre ++ mid ++ post, ∀ m, e ≠ Event.sd_bus_message_unref m) ∧
      (∀ e ∈ pre ++ mid ++ post, ∀ x r, e ≠ Event.fcntl_dupfd_cloexec x r)) ∧
    (0 ≤ (w.fcntl_dupfd_cloexec (replyHandle w seat path).fd).ret →
      (open_device w seat path fd0).ret =
        (w.fcntl_dupfd_cloexec (replyHandle w seat path).fd).ret ∧
      (open_device w seat path fd0).fd =
        (w.fcntl_dupfd_cloexec (replyHandle w seat path).fd).ret) ∧
    ((w.fcntl_dupfd_cloexec (replyHandle w seat path).fd).ret < 0 →
      (open_device w seat path fd0).ret < 0 ∧ (open_device w seat path fd0).fd = fd0) := by
  unfold replyHandle takeDeviceReply at *
  have h1 : ¬ (w.stat path).ret < 0 := by omega
  have h2 : ¬ (call_TakeDevice w seat (w.stat path).st_rdev).ret < 0 := by omega
  have h3 : ¬ (w.sd_bus_message_read_hb
      (call_TakeDevice w seat (w.stat path).st_rdev).msg).ret < 0 := by omega
  unfold open_device
  simp only [if_neg h1, if_neg h2, if_neg h3]
  split_ifs with h4
  · refine ⟨⟨[Event.stat path (w.stat path).ret,
        Event.sd_bus_call_method seat.session_path "org.freedesktop.login1.Session" "TakeDevice"
          [Arg.uint (w.major (w.stat path).st_rdev), Arg.uint (w.minor (w.stat path).st_rdev)]
          (call_TakeDevice w seat (w.stat path).st_rdev).ret,
        Event.sd_bus_message_read (call_TakeDevice w seat (w.stat path).st_rdev).msg "hb"
          (w.sd_bus_message_read_hb (call_TakeDevice w seat (w.stat path).st_rdev).msg).ret],
      [Event.stderr "[Error]: Could not duplicate fd: %s\n"
        [Arg.strerror (w.fcntl_dupfd_cloexec (w.sd_bus_message_read_hb
          (call_TakeDevice w seat (w.stat path).st_rdev).msg).fd).errno],
       Event.sd_bus_error_free], [], by simp, by simp, by simp⟩, ?_, ?_⟩
    · intro h; omega
    · intro _; simp
  · refine ⟨⟨[Event.stat path (w.stat path).ret,
        Event.sd_bus_call_method seat.session_path "org.freedesktop.login1.Session" "TakeDevice"
          [Arg.uint (w.major (w.stat path).st_rdev), Arg.uint (w.minor (w.stat path).st_rdev)]
          (call_TakeDevice w seat (w.stat path).st_rdev).ret,
        Event.sd_bus_message_read (call_TakeDevice w seat (w.stat path).st_rdev).msg "hb"
          (w.sd_bus_message_read_hb (call_TakeDevice w seat (w.stat path).st_rdev).msg).ret],
      [Event.sd_bus_error_free], [], by simp, by simp, by simp⟩, ?_, ?_⟩
    · intro _; simp
    · intro h; omega

/-- Witness for C7: `open_device` on the hard-coded node in `responsiveWorld`
returns the duplicate `8`, not the handle `7` carried by the reply. -/
theorem open_device_duplicates_before_release_witness :
    (open_device responsiveWorld (main responsiveWorld).seat device_path 0).ret = 8 ∧
    (replyHandle responsiveWorld (main responsiveWorld).seat device_path).fd = 7 :=
  ⟨((open_device_duplicates_before_release responsiveWorld (main responsiveWorld).seat
      device_path 0 (by decide) (by decide) (by decide)).2.1 (by decide)).1, by decide⟩

/-- Claim C10. Each of `find_session_path`, `find_seat_path` and `open_device`
returns a negative value exactly when one of the fallible calls it made
failed, and then leaves the aggregate (and `*fd`) as it found them; when it
succeeds, `find_session_path` changes only `session_path`, to the path read
from the `GetSession` reply, `find_seat_path` changes only `seat_path`, to the
path read from the `GetSeat` reply, and `open_device` changes only `*fd`, to
the non-negative value it returns. -/
theorem step_functions_atomic (w : World) (seat : Seat) (path : String) (fd0 : Int) :
    (((find_session_path w seat).ret < 0 ↔
        ∃ o ∈ outcomes (find_session_path w seat).trace, o.2 = false) ∧
      ((find_session_path w seat).ret < 0 → (find_session_path w seat).seat = seat) ∧
      (0 ≤ (find_session_path w seat).ret →
        (find_session_path w seat).seat =
          { seat with
            session_path := some (w.sd_bus_message_read_o (call_GetSession w seat).msg).path })) ∧
    (((find_seat_path w seat).ret < 0 ↔
        ∃ o ∈ outcomes (find_seat_path w seat).trace, o.2 = false) ∧
      ((find_seat_path w seat).ret < 0 → (find_seat_path w seat).seat = seat) ∧
      (0 ≤ (find_seat_path w seat).ret →
        (find_seat_path w seat).seat =
          { seat with
            seat_path := some (w.sd_bus_message_read_o (call_GetSeat w seat).msg).path })) ∧
    (((open_device w seat path fd0).ret < 0 ↔
        ∃ o ∈ outcomes (open_device w seat path fd0).trace, o.2 = false) ∧
      ((open_device w seat path fd0).ret < 0 →
        (open_device w seat path fd0).seat = seat ∧ (open_device w seat path fd0).fd = fd0) ∧
      (0 ≤ (open_device w seat path fd0).ret →
        (open_device w seat path fd0).seat = seat ∧
        (open_device w seat path fd0).fd = (open_device w seat path fd0).ret)) := by
  refine ⟨⟨?_, ?_, ?_⟩, ⟨?_, ?_, ?_⟩, ⟨?_, ?_, ?_⟩⟩
  · by_cases h : (find_session_path w seat).ret < 0
    · obtain ⟨j, hj, ho⟩ := find_session_path_fail h
      rw [ho]
      interval_cases j <;> simp [runTo, h]
    · simp [find_session_path_ok h, h]
  · intro h
    rw [find_session_path_seat, if_pos h]
  · intro h
    rw [find_session_path_seat, if_neg (by omega)]
  · by_cases h : (find_seat_path w seat).ret < 0
    · obtain ⟨j, hj, ho⟩ := find_seat_path_fail h
      rw [ho]
      interval_cases j <;> simp [runTo, h]
    · simp [find_seat_path_ok h, h]
  · intro h
    rw [find_seat_path_seat, if_pos h]
  · intro h
    rw [find_seat_path_seat, if_neg (by omega)]
  · by_cases h : (open_device w seat path fd0).ret < 0
    · obtain ⟨j, hj, ho⟩ := open_device_fail h
      rw [ho]
      interval_cases j <;> simp [runTo, h]
    · simp [(open_device_ok h).1, h]
  · intro h
    exact ⟨open_device_seat w seat path fd0, open_device_fd_of_fail h⟩
  · intro h
    exact ⟨open_device_seat w seat path fd0, (open_device_ok (by omega)).2⟩

end SeatTest
